import Mathlib

/-!
Shallow embedding of the comic-generation pipeline in `src/Comic.ipynb`
(StoryGenerator, ImageGenerator, ComicAssembler, generate_comic).

A Python `str` is a sequence of code points, modelled here as `List Char`
(`PyStr`); `len` is `List.length`, slicing `s[:n]` is `List.take n`, and
the Python string operations used by the code (`split`, `strip`,
`lower`, f-string concatenation) are given as structural recursions on
`PyStr`.  The two external model services (text completion and image
synthesis) are opaque parameters; a call that may raise a Python
exception is modelled as `Except PyStr _`, a raised exception being an
`Except.error`.  Drawing on the PIL canvas is modelled by recording, for
every pasted panel, the data the code computes for it (paste offsets,
frame and caption-band rectangles, caption strings); the canvas is the
record of its dimensions, title and pasted panels.
-/

/-- A Python string: a sequence of code points. -/
abbrev PyStr := List Char

/-- Embed a Lean string literal as a `PyStr`. -/
def pys (s : String) : PyStr := s.data

/-- Python `content.split(sep)` for a one-character separator: splits on
every occurrence, keeps empty segments, and yields `[""]` on `""`. -/
def py_split (sep : Char) : PyStr → List PyStr
  | [] => [[]]
  | c :: rest =>
    let r := py_split sep rest
    if c = sep then [] :: r
    else
      match r with
      | [] => [[c]]
      | p :: ps => (c :: p) :: ps

/-- Python `s.strip()`: drop leading and trailing whitespace. -/
def py_strip (s : PyStr) : PyStr :=
  ((s.dropWhile Char.isWhitespace).reverse.dropWhile Char.isWhitespace).reverse

/-- Python `s.lower()`. -/
def py_lower (s : PyStr) : PyStr := s.map Char.toLower

/-- Python `str(n)` for a nonnegative integer: its decimal digits. -/
def py_str_nat (n : Nat) : PyStr := Nat.toDigits 10 n

/-- A panel dictionary as built in `StoryGenerator.generate_story`
(lines 81-87 of `Comic.ipynb`): keys `panel`, `type`, `text`, `dialogue`,
`image_prompt`. -/
structure Panel where
  panel : Nat
  type : PyStr
  text : PyStr
  dialogue : PyStr
  image_prompt : PyStr
deriving Repr, DecidableEq

/-- The fixed list `panel_types` (line 43). -/
def panel_types : List PyStr :=
  [pys "Introduction", pys "Storyline", pys "Climax", pys "Resolution"]

/-- The per-panel instruction prompt built by the f-string at lines 47-56,
with `panel_type.lower()` and the user prompt interpolated.  The Python
triple-quoted literal keeps its leading newline and 12-space
indentation. -/
def panel_prompt (panel_type : PyStr) (prompt : PyStr) : PyStr :=
  pys "\n            Create a " ++ py_lower panel_type
    ++ pys " panel for a comic about: " ++ prompt
    ++ pys "\n\n            Include:"
    ++ pys "\n            1. A brief description (30-50 words)"
    ++ pys "\n            2. One line of dialogue"
    ++ pys "\n            3. Detailed visual description for an image"
    ++ pys "\n\n            Format: Description | Dialogue | Visual"
    ++ pys "\n            "

/-- The parsing step of `generate_story` (the `try` block, lines 63-78):
split the response on `'|'`; with at least 3 parts take the first three,
stripped; otherwise fall back to the first 100 characters of the response
(stripped) for the text, and to index/type/prompt-derived strings for the
dialogue and the image prompt.  On a string response every operation in
the `try` block is total, so the `except` branch (lines 74-78) is
unreachable and the parse is a total function. -/
def parse_panel_content (i : Nat) (panel_type : PyStr) (prompt : PyStr)
    (content : PyStr) : PyStr × PyStr × PyStr :=
  let parts := py_split '|' content
  if parts.length ≥ 3 then
    (py_strip (parts.getD 0 []), py_strip (parts.getD 1 []),
     py_strip (parts.getD 2 []))
  else
    (py_strip (content.take 100),
     pys "Panel " ++ py_str_nat (i + 1) ++ pys " dialogue",
     pys "Comic panel showing " ++ py_lower panel_type ++ pys " about "
       ++ prompt ++ pys ", detailed illustration")

/-- The loop of `generate_story` (lines 45-91), recursing over the
remaining panel types with the running index `i`.  The call into the
text-completion service (line 59) is OUTSIDE the `try`, so an error there
propagates and aborts the whole story; the parse step is
`parse_panel_content`. -/
def generate_story_go (generator : PyStr → Except PyStr PyStr)
    (prompt : PyStr) : Nat → List PyStr → Except PyStr (List Panel)
  | _, [] => Except.ok []
  | i, panel_type :: rest =>
    match generator (panel_prompt panel_type prompt) with
    | Except.error e => Except.error e
    | Except.ok content =>
      match generate_story_go generator prompt (i + 1) rest with
      | Except.error e => Except.error e
      | Except.ok restPanels =>
        let f := parse_panel_content i panel_type prompt content
        Except.ok ({ panel := i + 1, type := panel_type, text := f.1,
                     dialogue := f.2.1, image_prompt := f.2.2 } :: restPanels)

/-- `StoryGenerator.generate_story` (lines 37-91): iterate over
`enumerate(panel_types)` from index 0, invoking the text-completion
service (`generator`) once per panel. -/
def generate_story (generator : PyStr → Except PyStr PyStr)
    (prompt : PyStr) : Except PyStr (List Panel) :=
  generate_story_go generator prompt 0 panel_types

example :
    parse_panel_content 0 (pys "Introduction") (pys "p") (pys " a | b | c ") =
      (pys "a", pys "b", pys "c") := by decide

example :
    parse_panel_content 2 (pys "Climax") (pys "cats") (pys "no pipes here") =
      (pys "no pipes here", pys "Panel 3 dialogue",
       pys "Comic panel showing climax about cats, detailed illustration") := by
  decide

/-- The fixed `styles` dictionary of `ImageGenerator.generate_image`
(lines 116-121), as an association list in source order. -/
def styles : List (PyStr × PyStr) :=
  [(pys "comic", pys "comic book style, detailed illustration"),
   (pys "manga", pys "manga style, black and white"),
   (pys "superhero", pys "superhero comic style, dynamic pose"),
   (pys "cartoon", pys "cartoon style, colorful and vibrant")]

/-- `styles.get(style, styles["comic"])` (line 123): dictionary lookup
with the `"comic"` entry as default.  (`styles["comic"]` always exists,
so the final `[]` default is unreachable.) -/
def styles_get (style : PyStr) : PyStr :=
  (styles.lookup style).getD ((styles.lookup (pys "comic")).getD [])

/-- The enhanced prompt of `generate_image` (line 124):
`f"{style_prompt}, {prompt}"`. -/
def enhanced_prompt (style : PyStr) (prompt : PyStr) : PyStr :=
  styles_get style ++ pys ", " ++ prompt

/-- `ImageGenerator.generate_image` (lines 113-136): build the enhanced
prompt and invoke the image-synthesis service (`pipe`, opaque, may
fail) with it; its failure propagates. -/
def generate_image {α : Type} (pipe : PyStr → Except PyStr α)
    (prompt : PyStr) (style : PyStr) : Except PyStr α :=
  pipe (enhanced_prompt style prompt)

/-- One pasted panel of the composed canvas: everything the loop body of
`assemble_comic` (lines 174-206) computes for panel index `i` — the paste
offset `(x, y)`, the frame and caption-band rectangles, and the three
caption strings drawn in the band. -/
structure PastedPanel (α : Type) where
  x : Nat
  y : Nat
  image : α
  frame : Nat × Nat × Nat × Nat
  text_band : Nat × Nat × Nat × Nat
  label : PyStr
  text : PyStr
  dialogue_drawn : PyStr
deriving Repr, DecidableEq

/-- The composed comic canvas: dimensions, title text, and the pasted
panels in paste order. -/
structure ComicCanvas (α : Type) where
  width : Nat
  height : Nat
  title : PyStr
  panels : List (PastedPanel α)
deriving Repr, DecidableEq

/-- The loop body of `assemble_comic` (lines 174-206) for the `i`-th
`(panel, image)` pair of `zip(story_data, images)`: compute the row-major
cell offsets, truncate the description to 57 characters plus `"..."` when
longer than 60, truncate the dialogue to 37 characters plus `"..."` when
longer than 40, and record the drawn rectangles and caption strings. -/
def paste_panel {α : Type} (i : Nat) (panel : Panel) (image : α) :
    PastedPanel α :=
  let panel_width := 512
  let panel_height := 600
  let border := 20
  let row := i / 2
  let col := i % 2
  let x := border + col * (panel_width + border)
  let y := border + row * (panel_height + border)
  let text := panel.text
  let text := if text.length > 60 then text.take 57 ++ pys "..." else text
  let dialogue := panel.dialogue
  let dialogue :=
    if dialogue.length > 40 then dialogue.take 37 ++ pys "..." else dialogue
  { x := x, y := y, image := image,
    frame := (x, y, x + panel_width, y + panel_height - 88),
    text_band := (x, y + panel_width, x + panel_width, y + panel_height),
    label := pys "Panel " ++ py_str_nat panel.panel ++ pys ": " ++ panel.type,
    text := text,
    dialogue_drawn := pys "\"" ++ dialogue ++ pys "\"" }

/-- The panel loop `for i, (panel, image) in enumerate(zip(story_data,
images))` (line 174): paste one panel per zipped pair, with the running
index `i`. -/
def paste_panels {α : Type} : Nat → List (Panel × α) → List (PastedPanel α)
  | _, [] => []
  | i, (panel, image) :: rest =>
    paste_panel i panel image :: paste_panels (i + 1) rest

/-- `ComicAssembler.assemble_comic` (lines 156-208): a fixed 2×2 grid
canvas of `panel_width * 2 + border * 3` by `panel_height * 2 + border * 3`
pixels, titled `"Comic Story"`, over which the loop pastes one panel per
element of `zip(story_data, images)` (so surplus panels or images are
silently dropped; no length check is made and nothing can fail). -/
def assemble_comic {α : Type} (story_data : List Panel) (images : List α) :
    ComicCanvas α :=
  let panel_width := 512
  let panel_height := 600
  let border := 20
  let comic_width := panel_width * 2 + border * 3
  let comic_height := panel_height * 2 + border * 3
  { width := comic_width, height := comic_height,
    title := pys "Comic Story",
    panels := paste_panels 0 (story_data.zip images) }

/-- The image-generation loop of `generate_comic` (lines 231-235): one
`generate_image` call per panel, in story order; the first failure
propagates (fatal for the run). -/
def generate_images {α : Type} (pipe : PyStr → Except PyStr α)
    (style : PyStr) : List Panel → Except PyStr (List α)
  | [] => Except.ok []
  | panel :: rest =>
    match generate_image pipe panel.image_prompt style with
    | Except.error e => Except.error e
    | Except.ok image =>
      match generate_images pipe style rest with
      | Except.error e => Except.error e
      | Except.ok images => Except.ok (image :: images)

/-- The outcome of one `generate_comic` run: the files the run wrote, and
the `(comic, story_data)` pair it returns (line 255). -/
structure ComicRun (α : Type) where
  files_written : List PyStr
  comic : ComicCanvas α
  story_data : List Panel
deriving Repr, DecidableEq

/-- `generate_comic` (lines 214-255): generate the story, then one image
per panel, assemble the canvas, and save it as
`comic_output/comic_{timestamp}.png` — the single file write of the run
(`timestamp` models `int(time.time())` at the save).  Both the composed
image and the story data are returned. -/
def generate_comic {α : Type} (textGen : PyStr → Except PyStr PyStr)
    (pipe : PyStr → Except PyStr α) (timestamp : Nat)
    (prompt : PyStr) (style : PyStr) : Except PyStr (ComicRun α) :=
  match generate_story textGen prompt with
  | Except.error e => Except.error e
  | Except.ok story_data =>
    match generate_images pipe style story_data with
    | Except.error e => Except.error e
    | Except.ok images =>
      let comic := assemble_comic story_data images
      let filename :=
        pys "comic_output/comic_" ++ py_str_nat timestamp ++ pys ".png"
      Except.ok { files_written := [filename], comic := comic,
                  story_data := story_data }

/-! ### Sample data used by concrete witnesses and counterexamples -/

/-- A sample panel for the `k`-th panel type, with short caption texts. -/
def sample_panel (k : Nat) : Panel :=
  { panel := k + 1, type := panel_types.getD k [], text := pys "t",
    dialogue := pys "d", image_prompt := pys "ip" }

/-- A sample 4-panel story. -/
def story4 : List Panel :=
  [sample_panel 0, sample_panel 1, sample_panel 2, sample_panel 3]

/-- Four sample images (an image is opaque; here a `Nat` id). -/
def images4 : List Nat := [0, 1, 2, 3]

/-- The story `generate_story` produces when every model response is
`"a|b|c"`. -/
def story_abc : List Panel :=
  [{ panel := 1, type := pys "Introduction", text := pys "a",
     dialogue := pys "b", image_prompt := pys "c" },
   { panel := 2, type := pys "Storyline", text := pys "a",
     dialogue := pys "b", image_prompt := pys "c" },
   { panel := 3, type := pys "Climax", text := pys "a",
     dialogue := pys "b", image_prompt := pys "c" },
   { panel := 4, type := pys "Resolution", text := pys "a",
     dialogue := pys "b", image_prompt := pys "c" }]

/-- A panel whose description (70 chars) and dialogue (45 chars) exceed
the caption truncation thresholds. -/
def long_panel : Panel :=
  { panel := 1, type := pys "Introduction",
    text := pys "0123456789012345678901234567890123456789012345678901234567890123456789",
    dialogue := pys "012345678901234567890123456789012345678901234",
    image_prompt := pys "x" }

/-! ### Helper lemmas -/

/-- Panels produced by the `generate_story` loop carry exactly the panel
types it was given, in order. -/
theorem generate_story_go_map_type (gen : PyStr → Except PyStr PyStr)
    (prompt : PyStr) :
    ∀ (types : List PyStr) (i : Nat) (panels : List Panel),
      generate_story_go gen prompt i types = Except.ok panels →
      panels.map Panel.type = types := by
  intro types
  induction types with
  | nil =>
    intro i panels h
    simp only [generate_story_go] at h
    cases h
    rfl
  | cons t rest ih =>
    intro i panels h
    unfold generate_story_go at h
    cases hg : gen (panel_prompt t prompt) with
    | error e => rw [hg] at h; cases h
    | ok content =>
      rw [hg] at h
      cases hr : generate_story_go gen prompt (i + 1) rest with
      | error e => rw [hr] at h; cases h
      | ok restPanels =>
        rw [hr] at h
        cases h
        simpa using ih (i + 1) restPanels hr

/-- When every generator call returns normally, the `generate_story` loop
returns one panel per panel type. -/
theorem generate_story_go_total (gen : PyStr → Except PyStr PyStr)
    (prompt : PyStr) (hg : ∀ p, ∃ s, gen p = Except.ok s) :
    ∀ (types : List PyStr) (i : Nat),
      ∃ panels, generate_story_go gen prompt i types = Except.ok panels ∧
        panels.length = types.length := by
  intro types
  induction types with
  | nil => intro i; exact ⟨[], rfl, rfl⟩
  | cons t rest ih =>
    intro i
    obtain ⟨s, hs⟩ := hg (panel_prompt t prompt)
    obtain ⟨panels, hp, hl⟩ := ih (i + 1)
    have key : generate_story_go gen prompt i (t :: rest) =
        Except.ok ({ panel := i + 1, type := t,
                     text := (parse_panel_content i t prompt s).1,
                     dialogue := (parse_panel_content i t prompt s).2.1,
                     image_prompt := (parse_panel_content i t prompt s).2.2 }
          :: panels) := by
      unfold generate_story_go
      rw [hs, hp]
    exact ⟨_, key, by simpa using hl⟩

/-- Index lookup in a zipped list. -/
theorem zip_getElem_opt {α β : Type} :
    ∀ (l : List α) (m : List β) (i : Nat),
      (l.zip m)[i]? =
        l[i]?.bind fun a => m[i]?.map fun b => (a, b) := by
  intro l
  induction l with
  | nil => intro m i; simp
  | cons a l ih =>
    intro m i
    cases m with
    | nil => simp
    | cons b m =>
      cases i with
      | zero => simp
      | succ j => simpa using ih m j

/-- `paste_panels` yields one pasted panel per zipped pair. -/
theorem paste_panels_length {α : Type} :
    ∀ (i : Nat) (l : List (Panel × α)),
      (paste_panels i l).length = l.length := by
  intro i l
  induction l generalizing i with
  | nil => rfl
  | cons pr rest ih =>
    cases pr with
    | mk panel image => simpa [paste_panels] using ih (i + 1)

/-- Index lookup in `paste_panels`: the `j`-th pasted panel is built from
the `j`-th pair, at running index `i + j`. -/
theorem paste_panels_getElem_opt {α : Type} :
    ∀ (i : Nat) (l : List (Panel × α)) (j : Nat),
      (paste_panels i l)[j]? =
        l[j]?.map fun pr => paste_panel (i + j) pr.1 pr.2 := by
  intro i l
  induction l generalizing i with
  | nil => intro j; simp [paste_panels]
  | cons pr rest ih =>
    intro j
    cases pr with
    | mk panel image =>
      cases j with
      | zero => simp [paste_panels]
      | succ k =>
        have := ih (i + 1) k
        simp only [paste_panels, List.getElem?_cons_succ, this,
          List.getElem?_cons_succ]
        have harith : i + 1 + k = i + (k + 1) := by omega
        rw [harith]

/-- The composed canvas has one pasted panel per `zip(story, images)`
pair. -/
theorem assemble_comic_panels_length {α : Type} (story : List Panel)
    (images : List α) :
    (assemble_comic story images).panels.length =
      min story.length images.length := by
  simp [assemble_comic, paste_panels_length, List.length_zip]

/-- The `i`-th pasted panel of the composed canvas is `paste_panel i`
applied to the `i`-th story panel and the `i`-th image. -/
theorem assemble_comic_panel_at {α : Type} (story : List Panel)
    (images : List α) (i : Nat) :
    (assemble_comic story images).panels[i]? =
      story[i]?.bind fun panel =>
        images[i]?.map fun image => paste_panel i panel image := by
  show (paste_panels 0 (story.zip images))[i]? = _
  rw [paste_panels_getElem_opt, zip_getElem_opt]
  cases story[i]? with
  | none => rfl
  | some panel =>
    cases images[i]? with
    | none => rfl
    | some image => simp

/-- `(paste_panel i panel image).text` is the description truncated to 57
characters plus `"..."` when longer than 60 (lines 197-199). -/
theorem paste_panel_text {α : Type} (i : Nat) (panel : Panel) (image : α) :
    (paste_panel i panel image).text =
      if panel.text.length > 60 then panel.text.take 57 ++ pys "..."
      else panel.text := rfl

/-- `(paste_panel i panel image).dialogue_drawn` is the dialogue truncated
to 37 characters plus `"..."` when longer than 40, wrapped in double
quotes (lines 203-206). -/
theorem paste_panel_dialogue {α : Type} (i : Nat) (panel : Panel)
    (image : α) :
    (paste_panel i panel image).dialogue_drawn =
      pys "\"" ++ (if panel.dialogue.length > 40
        then panel.dialogue.take 37 ++ pys "..."
        else panel.dialogue) ++ pys "\"" := rfl

/-- A list of length 4 is a four-element list. -/
theorem list_length_four {α : Type} (l : List α) (h : l.length = 4) :
    ∃ a b c d, l = [a, b, c, d] := by
  cases l with
  | nil => simp at h
  | cons a l1 =>
    cases l1 with
    | nil => simp at h
    | cons b l2 =>
      cases l2 with
      | nil => simp at h
      | cons c l3 =>
        cases l3 with
        | nil => simp at h
        | cons d l4 =>
          cases l4 with
          | nil => exact ⟨a, b, c, d, rfl⟩
          | cons e l5 => simp at h

/-! ### Claims -/

/-- Claim C1, counterexample: called with a 3-panel story and 4 images
(lengths not both 4), `assemble_comic` does not fail — it returns a
composed canvas of the usual fixed dimensions carrying min(3, 4) = 3
pasted panels. -/
theorem C1_counterexample :
    (assemble_comic [sample_panel 0, sample_panel 1, sample_panel 2]
      images4).width = 1084 ∧
    (assemble_comic [sample_panel 0, sample_panel 1, sample_panel 2]
      images4).height = 1260 ∧
    (assemble_comic [sample_panel 0, sample_panel 1, sample_panel 2]
      images4).panels.length = 3 := by decide

/-- Claim C1, amended: if `assemble_comic` is invoked with a story and an
image sequence whose lengths are not both 4, it does NOT fail: it returns
the fixed-size composed canvas, pasting min(len(story), len(images))
panels. -/
theorem C1_no_length_check {α : Type} (story : List Panel) (images : List α)
    (_h : ¬(story.length = 4 ∧ images.length = 4)) :
    (assemble_comic story images).width = 1084 ∧
    (assemble_comic story images).height = 1260 ∧
    (assemble_comic story images).panels.length =
      min story.length images.length :=
  ⟨rfl, rfl, assemble_comic_panels_length story images⟩

/-- Claim C1, witness: the amended statement at the concrete 3-story,
4-image input. -/
theorem C1_witness :
    (assemble_comic [sample_panel 0, sample_panel 1, sample_panel 2]
      images4).width = 1084 ∧
    (assemble_comic [sample_panel 0, sample_panel 1, sample_panel 2]
      images4).height = 1260 ∧
    (assemble_comic [sample_panel 0, sample_panel 1, sample_panel 2]
      images4).panels.length =
      min ([sample_panel 0, sample_panel 1, sample_panel 2] : List Panel).length
        images4.length :=
  C1_no_length_check [sample_panel 0, sample_panel 1, sample_panel 2] images4
    (by decide)

/-- Claim C7, counterexample: at a concrete 4-panel story with 4 images
the canvas height is not 1240 (it is 2 * 600 + 3 * 20 = 1260; the claimed
value 1240 mis-evaluates that very formula). -/
theorem C7_counterexample :
    (assemble_comic story4 images4).height ≠ 1240 := by decide

/-- Claim C7, amended: for every story and every image sequence the
canvas returned by `assemble_comic` has fixed dimensions determined only
by the per-panel size and border constants: width = 2 * 512 + 3 * 20 =
1084 and height = 2 * 600 + 3 * 20 = 1260, independent of the input
images and caption texts. -/
theorem C7_canvas_dimensions {α : Type} (story : List Panel)
    (images : List α) :
    (assemble_comic story images).width = 2 * 512 + 3 * 20 ∧
    (assemble_comic story images).height = 2 * 600 + 3 * 20 ∧
    (assemble_comic story images).width = 1084 ∧
    (assemble_comic story images).height = 1260 :=
  ⟨rfl, rfl, rfl, rfl⟩

/-- Claim C8: with 4 panels and 4 images the panels are placed row-major
on the 2×2 grid — offsets (20, 20), (552, 20), (20, 640), (552, 640) for
indices 0..3 — and each offset is x = border + (i mod 2) * (panel_width +
border), y = border + (i div 2) * (panel_height + border). -/
theorem C8_row_major_layout {α : Type} (story : List Panel)
    (images : List α) (h1 : story.length = 4) (h2 : images.length = 4) :
    ((assemble_comic story images).panels.map fun pp => (pp.x, pp.y)) =
      [(20, 20), (552, 20), (20, 640), (552, 640)] ∧
    ∀ i : Nat, i < 4 →
      ((assemble_comic story images).panels.map fun pp => (pp.x, pp.y))[i]? =
        some (20 + (i % 2) * (512 + 20), 20 + (i / 2) * (600 + 20)) := by
  obtain ⟨a, b, c, d, rfl⟩ := list_length_four story h1
  obtain ⟨w, x, y, z, rfl⟩ := list_length_four images h2
  have hmap : ((assemble_comic [a, b, c, d] [w, x, y, z]).panels.map
      fun pp => (pp.x, pp.y)) = [(20, 20), (552, 20), (20, 640), (552, 640)] := by
    show ((paste_panels 0 ([a, b, c, d].zip [w, x, y, z])).map
      fun pp => (pp.x, pp.y)) = _
    simp [List.zip_cons_cons, paste_panels, paste_panel]
  refine ⟨hmap, fun i hi => ?_⟩
  rw [hmap]
  interval_cases i <;> rfl

/-- Claim C8, witness: the row-major offsets at a concrete 4-panel
story with 4 images. -/
theorem C8_witness :
    ((assemble_comic story4 images4).panels.map fun pp => (pp.x, pp.y)) =
      [(20, 20), (552, 20), (20, 640), (552, 640)] :=
  (C8_row_major_layout story4 images4 rfl rfl).1

/-- Claim C10: called with n panels and m images, `assemble_comic` raises
no error: it composes exactly min(n, m) pasted panels, pairing story
panels and images positionally (the i-th pasted panel is built from the
i-th panel and the i-th image; surplus elements are silently ignored),
and returns the fixed-size canvas normally. -/
theorem C10_zip_truncation {α : Type} (story : List Panel)
    (images : List α) :
    (assemble_comic story images).panels.length =
      min story.length images.length ∧
    (∀ i : Nat, (assemble_comic story images).panels[i]? =
      story[i]?.bind fun panel =>
        images[i]?.map fun image => paste_panel i panel image) ∧
    (assemble_comic story images).width = 1084 ∧
    (assemble_comic story images).height = 1260 :=
  ⟨assemble_comic_panels_length story images,
   fun i => assemble_comic_panel_at story images i, rfl, rfl⟩

/-- Claim C2, counterexample: two model responses with no pipe at all
(so fewer than 2 pipe delimiters), the same panel index, type, and user
prompt, but different resulting panel fields — the description fallback
is the first 100 characters of the response, so it is NOT a function
only of index, type, and prompt. -/
theorem C2_counterexample :
    (py_split '|' (pys "Intro text only")).length < 3 ∧
    (py_split '|' (pys "Different text")).length < 3 ∧
    parse_panel_content 0 (pys "Introduction") (pys "p")
        (pys "Intro text only") ≠
      parse_panel_content 0 (pys "Introduction") (pys "p")
        (pys "Different text") := by decide

/-- Claim C2, amended: when the response splits on `|` into fewer than 3
parts, the dialogue and image-prompt fields equal deterministic fallback
strings that are functions only of the panel index, the panel type and
the user prompt, but the description field equals the first 100
characters of the model response, stripped — it depends on the response
text. -/
theorem C2_fallback_values (i : Nat) (panel_type prompt content : PyStr)
    (h : (py_split '|' content).length < 3) :
    parse_panel_content i panel_type prompt content =
      (py_strip (content.take 100),
       pys "Panel " ++ py_str_nat (i + 1) ++ pys " dialogue",
       pys "Comic panel showing " ++ py_lower panel_type ++ pys " about "
         ++ prompt ++ pys ", detailed illustration") := by
  simp only [parse_panel_content]
  rw [if_neg (by omega)]

/-- Claim C2, witness: the amended statement at a concrete pipe-free
response. -/
theorem C2_witness :
    parse_panel_content 0 (pys "Introduction") (pys "p")
        (pys "Intro text only") =
      (py_strip ((pys "Intro text only").take 100),
       pys "Panel " ++ py_str_nat (0 + 1) ++ pys " dialogue",
       pys "Comic panel showing " ++ py_lower (pys "Introduction")
         ++ pys " about " ++ pys "p" ++ pys ", detailed illustration") :=
  C2_fallback_values 0 (pys "Introduction") (pys "p") (pys "Intro text only")
    (by decide)

/-- Claim C3, counterexample: an exception raised by the text-generation
call itself (line 59, outside the `try`) is NOT caught inside
`generate_story` — with a service that raises on the very first panel,
`generate_story` aborts with that error instead of returning 4 fallback
panels. -/
theorem C3_counterexample :
    generate_story (fun _ => Except.error (pys "text model failure"))
        (pys "p") =
      Except.error (pys "text model failure") := rfl

/-- Claim C3, amended: the `try` of `generate_story` covers only the
parsing of the response, which on a string response is total, so parse
problems never abort the story; but an exception raised by the
text-generation call itself propagates and aborts `generate_story`.
Whenever every text-generation call returns normally, `generate_story`
returns exactly 4 panels. -/
theorem C3_parse_never_aborts (generator : PyStr → Except PyStr PyStr)
    (prompt : PyStr) (hg : ∀ p, ∃ s, generator p = Except.ok s) :
    ∃ panels, generate_story generator prompt = Except.ok panels ∧
      panels.length = 4 := by
  obtain ⟨panels, hp, hl⟩ :=
    generate_story_go_total generator prompt hg panel_types 0
  exact ⟨panels, hp, by simpa [panel_types] using hl⟩

/-- Claim C3, witness: the amended statement for a generator that always
answers `"a|b|c"`. -/
theorem C3_witness :
    ∃ panels, generate_story (fun _ => Except.ok (pys "a|b|c")) (pys "p") =
      Except.ok panels ∧ panels.length = 4 :=
  C3_parse_never_aborts (fun _ => Except.ok (pys "a|b|c")) (pys "p")
    (fun _ => ⟨pys "a|b|c", rfl⟩)

/-- Claim C4: whatever the generator answers, whenever `generate_story`
returns it returns exactly 4 panels whose `type` fields are, in order,
Introduction, Storyline, Climax, Resolution. -/
theorem C4_fixed_panel_order (generator : PyStr → Except PyStr PyStr)
    (prompt : PyStr) (panels : List Panel)
    (h : generate_story generator prompt = Except.ok panels) :
    panels.length = 4 ∧
    panels.map Panel.type =
      [pys "Introduction", pys "Storyline", pys "Climax",
       pys "Resolution"] := by
  have hm := generate_story_go_map_type generator prompt panel_types 0 panels h
  refine ⟨?_, hm⟩
  have hlen := congrArg List.length hm
  simpa [panel_types] using hlen

/-- Claim C4, witness: the panel order at a generator that always answers
`"a|b|c"`. -/
theorem C4_witness :
    story_abc.length = 4 ∧
    story_abc.map Panel.type =
      [pys "Introduction", pys "Storyline", pys "Climax",
       pys "Resolution"] :=
  C4_fixed_panel_order (fun _ => Except.ok (pys "a|b|c")) (pys "p")
    story_abc rfl

/-- Claim C5: `generate_image` sends the service the style-prefix string,
then `", "`, then the image prompt; a style outside
{comic, manga, superhero, cartoon} silently yields the same prefix as
style `"comic"`; and for style `"manga"` the final prompt begins with
`"manga style, black and white, "`. -/
theorem C5_style_fallback {α : Type} (pipe : PyStr → Except PyStr α)
    (prompt style : PyStr) :
    generate_image pipe prompt style =
      pipe (styles_get style ++ (pys ", " ++ prompt)) ∧
    (style ∉ [pys "comic", pys "manga", pys "superhero", pys "cartoon"] →
      styles_get style = styles_get (pys "comic")) ∧
    enhanced_prompt (pys "manga") prompt =
      pys "manga style, black and white, " ++ prompt := by
  refine ⟨?_, ?_, ?_⟩
  · show pipe (styles_get style ++ pys ", " ++ prompt) = _
    rw [List.append_assoc]
  · intro h
    simp only [List.mem_cons, List.not_mem_nil, or_false, not_or] at h
    obtain ⟨h1, h2, h3, h4⟩ := h
    have e1 : (style == pys "comic") = false := beq_eq_false_iff_ne.mpr h1
    have e2 : (style == pys "manga") = false := beq_eq_false_iff_ne.mpr h2
    have e3 : (style == pys "superhero") = false := beq_eq_false_iff_ne.mpr h3
    have e4 : (style == pys "cartoon") = false := beq_eq_false_iff_ne.mpr h4
    simp [styles_get, styles, List.lookup, e1, e2, e3, e4]
  · rfl

/-- Claim C5, witness: an unknown style falls back to the comic prefix,
and the manga prompt for a concrete image prompt starts with the manga
prefix. -/
theorem C5_witness :
    styles_get (pys "watercolor") = styles_get (pys "comic") ∧
    enhanced_prompt (pys "manga") (pys "a robot learns to paint") =
      pys "manga style, black and white, "
        ++ pys "a robot learns to paint" :=
  ⟨(C5_style_fallback (fun p => (Except.ok p : Except PyStr PyStr)) (pys "x")
      (pys "watercolor")).2.1 (by decide),
   (C5_style_fallback (fun p => (Except.ok p : Except PyStr PyStr))
      (pys "a robot learns to paint") (pys "manga")).2.2⟩

/-- Claim C6: in the composed caption of any pasted panel, a description
longer than 60 characters is rendered as exactly its first 57 characters
followed by the 3-character ellipsis (total 60 characters); a dialogue
longer than 40 characters is rendered (inside its surrounding quotes) as
its first 37 characters followed by the ellipsis; within the thresholds
both are rendered unchanged. -/
theorem C6_caption_truncation {α : Type} (story : List Panel)
    (images : List α) (i : Nat) (panel : Panel)
    (hp : story[i]? = some panel) (him : i < images.length) :
    ∃ pp : PastedPanel α,
      (assemble_comic story images).panels[i]? = some pp ∧
      (panel.text.length > 60 →
        pp.text = panel.text.take 57 ++ pys "..." ∧ pp.text.length = 60) ∧
      (panel.text.length ≤ 60 → pp.text = panel.text) ∧
      (panel.dialogue.length > 40 →
        pp.dialogue_drawn =
          pys "\"" ++ (panel.dialogue.take 37 ++ pys "...") ++ pys "\"") ∧
      (panel.dialogue.length ≤ 40 →
        pp.dialogue_drawn = pys "\"" ++ panel.dialogue ++ pys "\"") := by
  have himg : images[i]? = some images[i] := List.getElem?_eq_getElem him
  refine ⟨paste_panel i panel images[i], ?_, ?_, ?_, ?_, ?_⟩
  · rw [assemble_comic_panel_at, hp, himg]
    rfl
  · intro h
    have ht : (paste_panel i panel images[i]).text =
        panel.text.take 57 ++ pys "..." := by
      rw [paste_panel_text, if_pos h]
    refine ⟨ht, ?_⟩
    rw [ht]
    simp only [List.length_append, List.length_take]
    have he : (pys "...").length = 3 := rfl
    rw [he]
    omega
  · intro h
    rw [paste_panel_text, if_neg (by omega)]
  · intro h
    rw [paste_panel_dialogue, if_pos h]
  · intro h
    rw [paste_panel_dialogue, if_neg (by omega)]

/-- Claim C6, witness: the truncation at a panel whose description has 70
characters and whose dialogue has 45. -/
theorem C6_witness :
    ∃ pp : PastedPanel Nat,
      (assemble_comic [long_panel] [0]).panels[0]? = some pp ∧
      (long_panel.text.length > 60 →
        pp.text = long_panel.text.take 57 ++ pys "..." ∧
          pp.text.length = 60) ∧
      (long_panel.text.length ≤ 60 → pp.text = long_panel.text) ∧
      (long_panel.dialogue.length > 40 →
        pp.dialogue_drawn =
          pys "\"" ++ (long_panel.dialogue.take 37 ++ pys "...")
            ++ pys "\"") ∧
      (long_panel.dialogue.length ≤ 40 →
        pp.dialogue_drawn = pys "\"" ++ long_panel.dialogue ++ pys "\"") :=
  C6_caption_truncation [long_panel] [0] 0 long_panel rfl (by decide)

/-- Claim C9: whenever a `generate_comic` run returns normally, it has
written exactly one file, whose path is
`comic_output/comic_{timestamp}.png` for the Unix timestamp taken at the
save, and it returns both the composed image (the canvas assembled from
the generated story and its images) and the story data. -/
theorem C9_single_file_write {α : Type}
    (textGen : PyStr → Except PyStr PyStr) (pipe : PyStr → Except PyStr α)
    (timestamp : Nat) (prompt style : PyStr) (run : ComicRun α)
    (h : generate_comic textGen pipe timestamp prompt style =
      Except.ok run) :
    run.files_written =
      [pys "comic_output/comic_" ++ py_str_nat timestamp ++ pys ".png"] ∧
    generate_story textGen prompt = Except.ok run.story_data ∧
    ∃ images, generate_images pipe style run.story_data =
        Except.ok images ∧
      run.comic = assemble_comic run.story_data images := by
  unfold generate_comic at h
  split at h
  next e heq => cases h
  next story_data heq =>
    split at h
    next e2 heq2 => cases h
    next images heq2 =>
      injection h with h2
      subst h2
      exact ⟨rfl, heq, images, heq2, rfl⟩

/-- Four sample images for the orchestrator witness (one per panel of
`story_abc`). -/
def images_abc : List PyStr :=
  [pys "img", pys "img", pys "img", pys "img"]

/-- The run `generate_comic` produces at timestamp 7 when the text model
always answers `"a|b|c"` and the image service always answers `"img"`. -/
def run_sample : ComicRun PyStr :=
  { files_written := [pys "comic_output/comic_7.png"],
    comic := assemble_comic story_abc images_abc,
    story_data := story_abc }

/-- Claim C9, witness: the single file write and returned pair at a
concrete run (timestamp 7, constant services). -/
theorem C9_witness :
    run_sample.files_written =
      [pys "comic_output/comic_" ++ py_str_nat 7 ++ pys ".png"] ∧
    generate_story (fun _ => Except.ok (pys "a|b|c")) (pys "p") =
      Except.ok run_sample.story_data ∧
    ∃ images, generate_images (fun _ => Except.ok (pys "img"))
        (pys "manga") run_sample.story_data = Except.ok images ∧
      run_sample.comic = assemble_comic run_sample.story_data images :=
  C9_single_file_write (fun _ => Except.ok (pys "a|b|c"))
    (fun _ => Except.ok (pys "img")) 7 (pys "p") (pys "manga") run_sample
    rfl
